import Mathlib

/-!
Verification of the insert destination subsystem of the Quickstep storage
layer (src/storage/InsertDestination.hpp), against its natural-language
specification.

The shallow embedding models:
  * the base-class pipeline notification `sendBlockFilledMessage`;
  * the three concrete strategies (AlwaysCreate, BlockPool, PartitionAware)
    together with the pieces of their state that the properties below
    mention: `returned_block_ids_`, `available_block_refs_`,
    `available_block_ids_`, `done_block_ids_`, `input_partition_id_`;
  * partition routing (`getPartitionId`, `setPartitionMembership`) and the
    drain of partially filled blocks.

Machine integers of the source (std::size_t, block_id, partition_id,
tmb::client_id) are modelled as `Nat`: none of the properties below involve
overflow.  Opaque typed values (`TypedValue`) are modelled as `Nat`; a tuple
is a map from attribute id to value.  A `ValueAccessor` row stream is a list
of (current position, tuple) pairs.  Protobuf serialisation is modelled as
the identity on the structured record (the payload is kept as the record
itself); the message bus is a function from send calls to a send status.

Definitions translated from code that is absent from src/ (the
implementation file of the header) carry a doc comment starting with
`Modelled from the spec:`.
-/

namespace Quickstep

/-- An attribute id (catalog/CatalogTypedefs.hpp `attribute_id`). -/
abbrev AttributeId := Nat

/-- An opaque typed value (types/TypedValue). -/
abbrev Value := Nat

/-- A tuple, read through `getAttributeValue` = function application. -/
abbrev Tuple := AttributeId → Value

/-- A block id (storage/StorageBlockInfo.hpp `block_id`). -/
abbrev BlockId := Nat

/-- A partition id (catalog/CatalogTypedefs.hpp `partition_id`). -/
abbrev PartitionId := Nat

/-- An owning reference to a loaded writable block
(storage/StorageBlock.hpp `MutableBlockReference`), identified by the id of
the block it pins. -/
structure MutableBlockReference where
  id : BlockId
deriving DecidableEq, Repr

/-- External partition scheme header (catalog/PartitionSchemeHeader.hpp):
the number of partitions, the ordered partitioning attribute ids, and the
pure partition function `getPartitionId` over the projected values. -/
structure PartitionSchemeHeader where
  numPartitions : Nat
  partitionAttributeIds : List AttributeId
  getPartitionId : List Value → PartitionId

/-- Result of a member function whose C++ body may end in LOG(FATAL) /
CHECK failure: either a normal result or a fatal process abort carrying the
diagnostic.  A fatal outcome is never returned as an error value to the
caller in the source; this constructor marks process death. -/
inductive Fallible (α : Type) where
  | ok : α → Fallible α
  | fatal : String → Fallible α
deriving DecidableEq, Repr

/-- The `InsertDestinationType` enum (src/storage/InsertDestination.hpp,
lines 77-81). -/
inductive InsertDestinationType where
  | kAlwaysCreateBlockInsertDestination
  | kBlockPoolInsertDestination
  | kPartitionAwareInsertDestination
deriving DecidableEq, Repr

/-- The serialised `DataPipelineMessage` protobuf
(query_execution/QueryExecutionMessages.pb.h), with exactly the five fields
set by `sendBlockFilledMessage`. -/
structure DataPipelineMessage where
  operator_index : Nat
  block_id : Nat
  relation_id : Nat
  query_id : Nat
  partition_id : Nat
deriving DecidableEq, Repr

/-- The tags a TMB tagged message may carry
(query_execution/QueryExecutionTypedefs.hpp); only the ones adjacent to the
pipeline protocol are listed. -/
inductive MessageTag where
  | kWorkOrderMessage
  | kDataPipelineMessage
  | kWorkOrderFeedbackMessage
deriving DecidableEq, Repr

/-- A tmb::TaggedMessage holding a serialised `DataPipelineMessage`
(serialisation modelled as the identity on the record). -/
structure TaggedMessage where
  payload : DataPipelineMessage
  message_type : MessageTag
deriving DecidableEq, Repr

/-- One call to `QueryExecutionUtil::SendTMBMessage`: sender client id,
receiver client id, and the tagged message. -/
structure SendCall where
  sender : Nat
  receiver : Nat
  message : TaggedMessage
deriving DecidableEq, Repr

/-- tmb::MessageBus::SendStatus. -/
inductive SendStatus where
  | kOK
  | kNoReceivers
  | kSenderNotConnected
deriving DecidableEq, Repr

/-- Whether the CHECK at the end of `sendBlockFilledMessage` passed or
killed the process. -/
inductive CheckOutcome where
  | passed
  | fatal : String → CheckOutcome
deriving DecidableEq, Repr

/-- What one execution of `sendBlockFilledMessage` did: the call it handed
to the message bus, and whether the CHECK on the send status passed. -/
structure SendResult where
  call : SendCall
  outcome : CheckOutcome
deriving DecidableEq, Repr

namespace InsertDestination

/-- The base-class fields of `InsertDestination` that
`sendBlockFilledMessage` reads (src/storage/InsertDestination.hpp, lines
280-292): the operator index, the query id, the target relation's id
(`relation_.getID()`), the scheduler's TMB client id, and the process-wide
thread-id-to-client-id map `thread_id_map_` (a reference to the global
ClientIDMap). -/
structure Fields where
  relational_op_index : Nat
  query_id : Nat
  relation_id : Nat
  scheduler_client_id : Nat
  thread_id_map : Nat → Nat

/-- `InsertDestination::sendBlockFilledMessage` (src/storage/
InsertDestination.hpp, lines 230-274).  Builds a `DataPipelineMessage`
proto with the five fields, wraps its serialised bytes in a TaggedMessage
with tag kDataPipelineMessage, and sends it over the bus from
`thread_id_map_.getValue()` (the bus identity of the current thread) to
`scheduler_client_id_`; CHECKs that the send status is kOK.  The current
OS thread is `current_thread`; the bus is a function from calls to a
status. -/
def sendBlockFilledMessage (d : Fields) (current_thread : Nat)
    (bus : SendCall → SendStatus) (id : BlockId) (part_id : PartitionId) :
    SendResult :=
  let proto : DataPipelineMessage :=
    { operator_index := d.relational_op_index
      block_id := id
      relation_id := d.relation_id
      query_id := d.query_id
      partition_id := part_id }
  let tagged_message : TaggedMessage :=
    { payload := proto, message_type := MessageTag.kDataPipelineMessage }
  let call : SendCall :=
    { sender := d.thread_id_map current_thread
      receiver := d.scheduler_client_id
      message := tagged_message }
  let send_status := bus call
  { call := call
    outcome :=
      match send_status with
      | SendStatus.kOK => CheckOutcome.passed
      | _ => CheckOutcome.fatal
          "CHECK failed: send_status == tmb::MessageBus::SendStatus::kOK" }

end InsertDestination

namespace BlockPoolInsertDestination

/-- The `BlockPoolInsertDestination` fields
(src/storage/InsertDestination.hpp, lines 481-486): references to blocks
loaded in memory, ids of relation blocks not loaded yet, and the ids of
fully filled blocks. -/
structure State where
  available_block_refs : List MutableBlockReference
  available_block_ids : List BlockId
  done_block_ids : List BlockId
deriving DecidableEq, Repr

/-- The `BlockPoolInsertDestination` constructor taking pre-existing
blocks (src/storage/InsertDestination.hpp, lines 442-461): moves the block
id list into `available_block_ids_`; the other vectors start empty. -/
def constructFromBlocks (blocks : List BlockId) : State :=
  { available_block_refs := []
    available_block_ids := blocks
    done_block_ids := [] }

/-- `StorageManager::getBlockMutable`: pin an existing block and return a
writable reference to it. -/
def getBlockMutable (bid : BlockId) : MutableBlockReference :=
  { id := bid }

/-- Modelled from the spec: `BlockPoolInsertDestination::getBlockForInsertion`
(declared at src/storage/InsertDestination.hpp line 467; its body lives in
the implementation file, which is absent from src/).  Per the spec, under
the lock: pop from `available_block_refs_` if any; else if
`available_block_ids_` is non-empty, load the last one through the storage
manager and return the resulting reference; else create a new block.  The
block a call to `createNewBlock` would produce is passed as `new_block`. -/
def getBlockForInsertion (st : State) (new_block : MutableBlockReference) :
    State × MutableBlockReference :=
  match st.available_block_refs.getLast? with
  | some r =>
    ({ st with available_block_refs := st.available_block_refs.dropLast }, r)
  | none =>
    match st.available_block_ids.getLast? with
    | some bid =>
      ({ st with available_block_ids := st.available_block_ids.dropLast },
       getBlockMutable bid)
    | none => (st, new_block)

end BlockPoolInsertDestination

namespace PartitionAwareInsertDestination

/-- The `PartitionAwareInsertDestination` fields that routing and draining
read (src/storage/InsertDestination.hpp, lines 663-674): the owned
partition scheme header, the per-partition vectors of available block
references, available block ids and done block ids, and the cached
`input_partition_id_`. -/
structure State where
  partition_scheme_header : PartitionSchemeHeader
  available_block_refs : List (List MutableBlockReference)
  available_block_ids : List (List BlockId)
  done_block_ids : List (List BlockId)
  input_partition_id : PartitionId

/-- `PartitionAwareInsertDestination::setInputPartitionId`
(src/storage/InsertDestination.hpp, lines 570-572). -/
def setInputPartitionId (st : State) (input_partition_id : PartitionId) : State :=
  { st with input_partition_id := input_partition_id }

/-- `PartitionAwareInsertDestination::getPartitionId`
(src/storage/InsertDestination.hpp, lines 631-640): project the tuple on
the scheme header's partitioning attribute ids; if the projected value list
is empty, route to the cached `input_partition_id_`, otherwise to the
header's `getPartitionId` of the values. -/
def getPartitionId (st : State) (tuple : Tuple) : PartitionId :=
  let partition_attr_ids := st.partition_scheme_header.partitionAttributeIds
  let values := partition_attr_ids.map (fun a => tuple a)
  if values.isEmpty then st.input_partition_id
  else st.partition_scheme_header.getPartitionId values

/-- `PartitionAwareInsertDestination::setPartitionMembership`
(src/storage/InsertDestination.hpp, lines 642-661).  The accessor is a list
of (current position, tuple) pairs; the result lists, in iteration order,
the (partition, position) pairs set in the membership bitmaps: with an
empty partitioning attribute list every position goes to
`input_partition_id_`, otherwise each row's projected values are fed to the
header's `getPartitionId`. -/
def setPartitionMembership (st : State) (accessor : List (Nat × Tuple)) :
    List (PartitionId × Nat) :=
  let partition_attr_ids := st.partition_scheme_header.partitionAttributeIds
  if partition_attr_ids.isEmpty then
    accessor.map (fun row => (st.input_partition_id, row.fst))
  else
    accessor.map (fun row =>
      (st.partition_scheme_header.getPartitionId
        (partition_attr_ids.map (fun a => row.snd a)), row.fst))

/-- The `PartitionAwareInsertDestination` constructor
(src/storage/InsertDestination.hpp, lines 512-521).  Modelled from the
spec: the constructor body lives in the implementation file, which is
absent from src/; per the spec it initialises the per-partition vectors
from the `partitions` argument (available ids) with empty reference and
done lists.  The field `input_partition_id_` carries the in-class
initializer `0u` from the header itself (line 674). -/
def construct (partition_scheme_header : PartitionSchemeHeader)
    (partitions : List (List BlockId)) : State :=
  { partition_scheme_header := partition_scheme_header
    available_block_refs :=
      List.replicate partition_scheme_header.numPartitions []
    available_block_ids := partitions
    done_block_ids := List.replicate partition_scheme_header.numPartitions []
    input_partition_id := 0 }

/-- `PartitionAwareInsertDestination::getPartiallyFilledBlocksInPartition`
(src/storage/InsertDestination.hpp, lines 619-629).  Under the partition's
mutex, loop over that partition's `available_block_refs_` pushing each
reference onto `partial_blocks` and the partition id onto `part_ids`, then
clear the partition's reference vector. -/
def getPartiallyFilledBlocksInPartition (st : State)
    (partial_blocks : List MutableBlockReference)
    (part_ids : List PartitionId) (part_id : PartitionId) :
    State × List MutableBlockReference × List PartitionId :=
  let refs := st.available_block_refs.getD part_id []
  let outs := refs.foldl
    (fun acc r => (acc.fst ++ [r], acc.snd ++ [part_id])) (partial_blocks, part_ids)
  ({ st with available_block_refs := st.available_block_refs.set part_id [] },
   outs.fst, outs.snd)

/-- `PartitionAwareInsertDestination::getPartiallyFilledBlocks`
(src/storage/InsertDestination.hpp, lines 539-546): iterate through each
partition 0 .. numPartitions-1 in order and drain it. -/
def getPartiallyFilledBlocks (st : State)
    (partial_blocks : List MutableBlockReference)
    (part_ids : List PartitionId) :
    State × List MutableBlockReference × List PartitionId :=
  (List.range st.partition_scheme_header.numPartitions).foldl
    (fun acc p =>
      getPartiallyFilledBlocksInPartition acc.fst acc.snd.fst acc.snd.snd p)
    (st, partial_blocks, part_ids)

/-- The per-partition reference vectors cleared at every index below n:
the state `getPartiallyFilledBlocks` leaves behind after visiting
partitions 0 .. n-1. -/
def clearBelow (n : Nat) (l : List (List MutableBlockReference)) :
    List (List MutableBlockReference) :=
  (List.range n).foldl (fun acc p => acc.set p []) l

/-- `PartitionAwareInsertDestination::getBlockForInsertion`
(src/storage/InsertDestination.hpp, lines 575-577): the override without a
partition argument is LOG(FATAL). -/
def getBlockForInsertion (st : State) : Fallible MutableBlockReference :=
  Fallible.fatal
    "PartitionAwareInsertDestination::getBlockForInsertion needs a partition id as an argument."

/-- Modelled from the spec:
`PartitionAwareInsertDestination::getBlockForInsertionInPartition`
(declared at src/storage/InsertDestination.hpp line 586; its body lives in
the implementation file, which is absent from src/).  Per the spec,
per-partition block management is identical to BlockPool, scoped to
`part_id` under that partition's mutex. -/
def getBlockForInsertionInPartition (st : State)
    (new_block : MutableBlockReference) (part_id : PartitionId) :
    State × MutableBlockReference :=
  let refs := st.available_block_refs.getD part_id []
  match refs.getLast? with
  | some r =>
    ({ st with available_block_refs :=
        st.available_block_refs.set part_id refs.dropLast }, r)
  | none =>
    let ids := st.available_block_ids.getD part_id []
    match ids.getLast? with
    | some bid =>
      ({ st with available_block_ids :=
          st.available_block_ids.set part_id ids.dropLast },
       BlockPoolInsertDestination.getBlockMutable bid)
    | none => (st, new_block)

/-- `PartitionAwareInsertDestination::bulkInsertTuplesFromValueAccessors`
(src/storage/InsertDestination.hpp, lines 561-565): the override is
LOG(FATAL). -/
def bulkInsertTuplesFromValueAccessors (st : State)
    (accessor_attribute_map : List (List (Nat × Tuple) × List AttributeId))
    (always_mark_full : Bool) : Fallible Unit :=
  Fallible.fatal
    "bulkInsertTuplesFromValueAccessors is not implemented for PartitionAwareInsertDestination"

end PartitionAwareInsertDestination

namespace AlwaysCreateBlockInsertDestination

/-- The `AlwaysCreateBlockInsertDestination` state
(src/storage/InsertDestination.hpp, line 387): the ordered list
`returned_block_ids_`. -/
structure State where
  returned_block_ids : List BlockId
deriving DecidableEq, Repr

/-- `AlwaysCreateBlockInsertDestination::getPartiallyFilledBlocks`
(src/storage/InsertDestination.hpp, lines 378-380): the body is empty, so
the output vectors are left exactly as they were. -/
def getPartiallyFilledBlocks (partial_blocks : List MutableBlockReference)
    (part_ids : List PartitionId) :
    List MutableBlockReference × List PartitionId :=
  (partial_blocks, part_ids)

/-- `AlwaysCreateBlockInsertDestination::getTouchedBlocksInternal`
(src/storage/InsertDestination.hpp, lines 383-385): returns
`returned_block_ids_`. -/
def getTouchedBlocksInternal (st : State) : List BlockId :=
  st.returned_block_ids

/-- Modelled from the spec: `AlwaysCreateBlockInsertDestination::returnBlock`
(declared at src/storage/InsertDestination.hpp line 374; its body lives in
the implementation file, which is absent from src/).  Per the spec it
unconditionally marks the block as done and appends its id to
`returned_block_ids_`, regardless of the full flag. -/
def returnBlock (st : State) (block : MutableBlockReference) (full : Bool) :
    State :=
  { st with returned_block_ids := st.returned_block_ids ++ [block.id] }

/-- `AlwaysCreateBlockInsertDestination::bulkInsertTuplesFromValueAccessors`
(src/storage/InsertDestination.hpp, lines 365-369): the override is
LOG(FATAL). -/
def bulkInsertTuplesFromValueAccessors (st : State)
    (accessor_attribute_map : List (List (Nat × Tuple) × List AttributeId))
    (always_mark_full : Bool) : Fallible Unit :=
  Fallible.fatal
    "bulkInsertTuplesFromValueAccessors is not implemented for AlwaysCreateBlockInsertDestination"

end AlwaysCreateBlockInsertDestination

/-- Virtual dispatch of `bulkInsertTuplesFromValueAccessors` over the
strategy chosen by `insert_dest_type_`.  The AlwaysCreate and
PartitionAware branches are the overrides from the source header.
Modelled from the spec for the BlockPool branch: BlockPoolInsertDestination
does not override the method and inherits the base-class implementation
(whose body lives in the implementation file, absent from src/); per the
spec, only BlockPool supports this entry point, and it completes
normally. -/
def bulkInsertTuplesFromValueAccessorsDispatch
    (t : InsertDestinationType)
    (ac : AlwaysCreateBlockInsertDestination.State)
    (pa : PartitionAwareInsertDestination.State)
    (accessor_attribute_map : List (List (Nat × Tuple) × List AttributeId))
    (always_mark_full : Bool) : Fallible Unit :=
  match t with
  | InsertDestinationType.kAlwaysCreateBlockInsertDestination =>
    AlwaysCreateBlockInsertDestination.bulkInsertTuplesFromValueAccessors
      ac accessor_attribute_map always_mark_full
  | InsertDestinationType.kBlockPoolInsertDestination => Fallible.ok ()
  | InsertDestinationType.kPartitionAwareInsertDestination =>
    PartitionAwareInsertDestination.bulkInsertTuplesFromValueAccessors
      pa accessor_attribute_map always_mark_full

theorem getD_set_self_nil (l : List (List MutableBlockReference)) (p : Nat) :
    (l.set p []).getD p [] = [] := by
  rcases Nat.lt_or_ge p l.length with h | h
  · simp [List.getD_eq_getElem?_getD, List.getElem?_set_self h]
  · have h2 : ¬ p < l.length := Nat.not_lt.mpr h
    simp [List.getD_eq_getElem?_getD, List.getElem?_set, h2]

theorem getD_set_ne_nil (l : List (List MutableBlockReference))
    (q p : Nat) (x : List MutableBlockReference) (h : q ≠ p) :
    (l.set q x).getD p [] = l.getD p [] := by
  simp [List.getD_eq_getElem?_getD, List.getElem?_set_ne h]

namespace PartitionAwareInsertDestination

theorem push_loop_eq (refs : List MutableBlockReference)
    (pb : List MutableBlockReference) (pids : List PartitionId) (p : PartitionId) :
    refs.foldl (fun acc r => (acc.fst ++ [r], acc.snd ++ [p])) (pb, pids) =
      (pb ++ refs, pids ++ List.replicate refs.length p) := by
  induction refs generalizing pb pids with
  | nil => simp
  | cons r rs ih =>
    simp [List.foldl_cons, ih, List.replicate_succ, List.append_assoc]

theorem getPartiallyFilledBlocksInPartition_eq (st : State)
    (pb : List MutableBlockReference) (pids : List PartitionId)
    (p : PartitionId) :
    getPartiallyFilledBlocksInPartition st pb pids p =
      ({ st with available_block_refs := st.available_block_refs.set p [] },
       pb ++ st.available_block_refs.getD p [],
       pids ++ List.replicate (st.available_block_refs.getD p []).length p) := by
  simp [getPartiallyFilledBlocksInPartition, push_loop_eq]

theorem clearBelow_succ (n : Nat) (l : List (List MutableBlockReference)) :
    clearBelow (n + 1) l = (clearBelow n l).set n [] := by
  unfold clearBelow
  rw [List.range_succ, List.foldl_append]
  rfl

theorem clearBelow_getD_ge (n p : Nat) (l : List (List MutableBlockReference))
    (h : n ≤ p) : (clearBelow n l).getD p [] = l.getD p [] := by
  induction n with
  | zero => rfl
  | succ n ih =>
    rw [clearBelow_succ, getD_set_ne_nil _ _ _ _ (by omega), ih (by omega)]

theorem clearBelow_getD_lt (n p : Nat) (l : List (List MutableBlockReference))
    (h : p < n) : (clearBelow n l).getD p [] = [] := by
  induction n with
  | zero => omega
  | succ n ih =>
    rw [clearBelow_succ]
    by_cases hp : p = n
    · subst hp
      exact getD_set_self_nil _ _
    · rw [getD_set_ne_nil _ _ _ _ (by omega)]
      exact ih (by omega)

theorem drain_loop_spec (st : State) (pb : List MutableBlockReference)
    (pids : List PartitionId) (n : Nat) :
    (List.range n).foldl
      (fun acc p =>
        getPartiallyFilledBlocksInPartition acc.fst acc.snd.fst acc.snd.snd p)
      (st, pb, pids) =
    ({ st with available_block_refs := clearBelow n st.available_block_refs },
     pb ++ ((List.range n).map
       (fun p => st.available_block_refs.getD p [])).flatten,
     pids ++ ((List.range n).map
       (fun p =>
         List.replicate (st.available_block_refs.getD p []).length p)).flatten) := by
  induction n with
  | zero => simp [clearBelow]
  | succ n ih =>
    rw [List.range_succ, List.foldl_append, ih]
    simp only [List.foldl_cons, List.foldl_nil,
      getPartiallyFilledBlocksInPartition_eq]
    rw [clearBelow_getD_ge n n st.available_block_refs (Nat.le_refl n),
      ← clearBelow_succ]
    simp [List.range_succ, List.append_assoc]

end PartitionAwareInsertDestination

/-- C1: for every block-full notification the destination hands the bus a
call whose payload is a DataPipelineMessage with exactly the fields
operator_index (the destination's relational operator index), block_id,
relation_id (the target relation's id), query_id and partition_id, tagged
kDataPipelineMessage, addressed to scheduler_client_id, with the sender
taken from the process-wide thread-id-to-client-id map applied to the
current thread (not supplied by the caller). -/
theorem sendBlockFilledMessage_call_spec (d : InsertDestination.Fields)
    (current_thread : Nat) (bus : SendCall → SendStatus)
    (id : BlockId) (part_id : PartitionId) :
    (InsertDestination.sendBlockFilledMessage d current_thread bus id part_id).call =
      { sender := d.thread_id_map current_thread
        receiver := d.scheduler_client_id
        message :=
          { payload :=
              { operator_index := d.relational_op_index
                block_id := id
                relation_id := d.relation_id
                query_id := d.query_id
                partition_id := part_id }
            message_type := MessageTag.kDataPipelineMessage } } := by
  rfl

/-- C4: if the bus returns any status other than kOK for the pipeline
notification, the CHECK fails and the process dies fatally; the failure is
not returned to the caller as a value and no second send occurs (the
function performs exactly the one bus call recorded in `call`). -/
theorem sendBlockFilledMessage_fatal_on_send_failure
    (d : InsertDestination.Fields) (current_thread : Nat)
    (bus : SendCall → SendStatus) (id : BlockId) (part_id : PartitionId)
    (h : bus (InsertDestination.sendBlockFilledMessage d current_thread bus id part_id).call ≠
      SendStatus.kOK) :
    (InsertDestination.sendBlockFilledMessage d current_thread bus id part_id).outcome =
      CheckOutcome.fatal
        "CHECK failed: send_status == tmb::MessageBus::SendStatus::kOK" := by
  revert h
  unfold InsertDestination.sendBlockFilledMessage
  cases hbus : bus { sender := d.thread_id_map current_thread
                     receiver := d.scheduler_client_id
                     message :=
                       { payload :=
                           { operator_index := d.relational_op_index
                             block_id := id
                             relation_id := d.relation_id
                             query_id := d.query_id
                             partition_id := part_id }
                         message_type := MessageTag.kDataPipelineMessage } } <;>
    simp [hbus]

/-- Witness for C4 at a concrete destination, thread, bus and block: the
bus refuses every call, and the outcome is the fatal CHECK failure. -/
theorem sendBlockFilledMessage_fatal_on_send_failure_witness :
    ((fun _ => SendStatus.kNoReceivers : SendCall → SendStatus)
        (InsertDestination.sendBlockFilledMessage
          ⟨4, 9, 2, 11, fun t => t + 100⟩ 3 (fun _ => SendStatus.kNoReceivers) 42 1).call ≠
      SendStatus.kOK) ∧
    (InsertDestination.sendBlockFilledMessage
        ⟨4, 9, 2, 11, fun t => t + 100⟩ 3 (fun _ => SendStatus.kNoReceivers) 42 1).outcome =
      CheckOutcome.fatal
        "CHECK failed: send_status == tmb::MessageBus::SendStatus::kOK" :=
  ⟨by simp, sendBlockFilledMessage_fatal_on_send_failure
    ⟨4, 9, 2, 11, fun t => t + 100⟩ 3 (fun _ => SendStatus.kNoReceivers) 42 1 (by simp)⟩

/-- C2: routing for a PartitionAware destination.  With a non-empty
partitioning attribute list the routing partition is the scheme header's
partition function applied to the tuple's projected attribute values; with
an empty list it is the cached input partition id (set via
setInputPartitionId); and setPartitionMembership classifies every accessor
row by exactly the same rule. -/
theorem partitionAware_routing_spec
    (st : PartitionAwareInsertDestination.State) (tuple : Tuple)
    (accessor : List (Nat × Tuple)) :
    PartitionAwareInsertDestination.getPartitionId st tuple =
      (if st.partition_scheme_header.partitionAttributeIds = [] then
        st.input_partition_id
      else
        st.partition_scheme_header.getPartitionId
          (st.partition_scheme_header.partitionAttributeIds.map
            (fun a => tuple a))) ∧
    PartitionAwareInsertDestination.setPartitionMembership st accessor =
      accessor.map (fun row =>
        (PartitionAwareInsertDestination.getPartitionId st row.snd, row.fst)) := by
  unfold PartitionAwareInsertDestination.getPartitionId
    PartitionAwareInsertDestination.setPartitionMembership
  cases h : st.partition_scheme_header.partitionAttributeIds with
  | nil => simp [h]
  | cons a as => simp [h]

/-- C2 routing at a concrete destination: partition attribute id 0, header
partition function `value mod 2`, and a passthrough state; also checks the
cached-input branch on a second state whose attribute list is empty. -/
theorem partitionAware_routing_spec_example :
    PartitionAwareInsertDestination.getPartitionId
      ⟨⟨2, [0], fun vs => vs.headD 0 % 2⟩, [[], []], [[], []], [[], []], 0⟩
      (fun _ => 5) = 1 ∧
    PartitionAwareInsertDestination.getPartitionId
      ⟨⟨2, [], fun vs => vs.headD 0 % 2⟩, [[], []], [[], []], [[], []], 1⟩
      (fun _ => 5) = 1 := by
  exact ⟨rfl, rfl⟩

/-- C3: for a PartitionAware destination with P partitions,
getPartiallyFilledBlocks visits partitions 0 .. P-1 in ascending order,
appending each partition's retained block references to partial_blocks in
their stored order and pushing that partition's id onto part_ids once per
appended block; the partition reference vectors are left cleared. -/
theorem partitionAware_getPartiallyFilledBlocks_spec
    (st : PartitionAwareInsertDestination.State)
    (pb : List MutableBlockReference) (pids : List PartitionId) :
    PartitionAwareInsertDestination.getPartiallyFilledBlocks st pb pids =
      ({ st with available_block_refs :=
          (PartitionAwareInsertDestination.clearBelow
            st.partition_scheme_header.numPartitions st.available_block_refs) },
       pb ++ ((List.range st.partition_scheme_header.numPartitions).map
         (fun p => st.available_block_refs.getD p [])).flatten,
       pids ++ ((List.range st.partition_scheme_header.numPartitions).map
         (fun p =>
           List.replicate (st.available_block_refs.getD p []).length p)).flatten) := by
  unfold PartitionAwareInsertDestination.getPartiallyFilledBlocks
  exact PartitionAwareInsertDestination.drain_loop_spec st pb pids _

/-- C6: calling getPartiallyFilledBlocks a second time with no intervening
inserts appends nothing: for PartitionAware the second call returns the
output vectors unchanged, and for AlwaysCreate every call (in particular a
repeated one) leaves the output vectors unchanged.  Neither is an error. -/
theorem getPartiallyFilledBlocks_second_call_empty
    (st : PartitionAwareInsertDestination.State)
    (pb : List MutableBlockReference) (pids : List PartitionId)
    (pb0 : List MutableBlockReference) (pids0 : List PartitionId) :
    (PartitionAwareInsertDestination.getPartiallyFilledBlocks
        (PartitionAwareInsertDestination.getPartiallyFilledBlocks st pb pids).fst
        (PartitionAwareInsertDestination.getPartiallyFilledBlocks st pb pids).snd.fst
        (PartitionAwareInsertDestination.getPartiallyFilledBlocks st pb pids).snd.snd).snd =
      (PartitionAwareInsertDestination.getPartiallyFilledBlocks st pb pids).snd ∧
    AlwaysCreateBlockInsertDestination.getPartiallyFilledBlocks pb0 pids0 =
      (pb0, pids0) := by
  refine ⟨?_, rfl⟩
  rw [partitionAware_getPartiallyFilledBlocks_spec st pb pids]
  rw [partitionAware_getPartiallyFilledBlocks_spec]
  have hnil : ∀ p ∈ List.range st.partition_scheme_header.numPartitions,
      (PartitionAwareInsertDestination.clearBelow
        st.partition_scheme_header.numPartitions
        st.available_block_refs).getD p [] = [] := by
    intro p hp
    exact PartitionAwareInsertDestination.clearBelow_getD_lt _ _ _
      (List.mem_range.mp hp)
  have hmap1 :
      List.map
        (fun p => (PartitionAwareInsertDestination.clearBelow
          st.partition_scheme_header.numPartitions
          st.available_block_refs).getD p [])
        (List.range st.partition_scheme_header.numPartitions) =
      List.map (fun _ => ([] : List MutableBlockReference))
        (List.range st.partition_scheme_header.numPartitions) :=
    List.map_congr_left (fun a ha => hnil a ha)
  have hmap2 :
      List.map
        (fun p => List.replicate
          ((PartitionAwareInsertDestination.clearBelow
            st.partition_scheme_header.numPartitions
            st.available_block_refs).getD p []).length p)
        (List.range st.partition_scheme_header.numPartitions) =
      List.map (fun _ => ([] : List PartitionId))
        (List.range st.partition_scheme_header.numPartitions) :=
    List.map_congr_left (fun a ha => by rw [hnil a ha]; rfl)
  simp [hmap1, hmap2]
  intro a ha
  have h3 := hnil a (List.mem_range.mpr ha)
  rw [List.getD_eq_getElem?_getD] at h3
  exact h3

/-- C9: for an AlwaysCreate destination, getPartiallyFilledBlocks appends
nothing to either output vector, and getTouchedBlocks returns exactly
returned_block_ids_: the ids of the returned blocks in the order the
returnBlock calls appended them, extending the prior contents in
insertion order. -/
theorem alwaysCreate_finalisation_spec
    (st : AlwaysCreateBlockInsertDestination.State)
    (pb : List MutableBlockReference) (pids : List PartitionId)
    (returns : List (MutableBlockReference × Bool)) :
    AlwaysCreateBlockInsertDestination.getPartiallyFilledBlocks pb pids =
      (pb, pids) ∧
    AlwaysCreateBlockInsertDestination.getTouchedBlocksInternal
        (returns.foldl
          (fun s r => AlwaysCreateBlockInsertDestination.returnBlock s r.fst r.snd)
          st) =
      st.returned_block_ids ++ returns.map (fun r => r.fst.id) := by
  refine ⟨rfl, ?_⟩
  induction returns generalizing st with
  | nil => simp [AlwaysCreateBlockInsertDestination.getTouchedBlocksInternal]
  | cons r rs ih =>
    rw [List.map_cons, List.foldl_cons, ih]
    simp [AlwaysCreateBlockInsertDestination.returnBlock, List.append_assoc]

/-- C10: a freshly constructed PartitionAware destination whose
partitioning attribute list is empty routes every tuple to partition 0,
because the in-class initializer sets input_partition_id_ to 0 and
setInputPartitionId was never called. -/
theorem partitionAware_default_input_partition
    (header : PartitionSchemeHeader) (partitions : List (List BlockId))
    (tuple : Tuple) (h : header.partitionAttributeIds = []) :
    PartitionAwareInsertDestination.getPartitionId
      (PartitionAwareInsertDestination.construct header partitions) tuple = 0 := by
  unfold PartitionAwareInsertDestination.getPartitionId
    PartitionAwareInsertDestination.construct
  simp [h]

/-- Witness for C10: a concrete header with an empty attribute list and
four partitions; a tuple with all attributes 7 routes to partition 0. -/
theorem partitionAware_default_input_partition_witness :
    (PartitionSchemeHeader.partitionAttributeIds ⟨4, [], fun vs => vs.headD 0⟩ = []) ∧
    PartitionAwareInsertDestination.getPartitionId
      (PartitionAwareInsertDestination.construct
        ⟨4, [], fun vs => vs.headD 0⟩ [[3], [], [5], []]) (fun _ => 7) = 0 :=
  ⟨rfl, partitionAware_default_input_partition
    ⟨4, [], fun vs => vs.headD 0⟩ [[3], [], [5], []] (fun _ => 7) rfl⟩

/-- C5: BlockPool getBlockForInsertion prefers the pool of loaded
references (popping from the back of available_block_refs); with no loaded
reference it loads the last id of available_block_ids (LIFO) through the
storage manager and returns the resulting reference; only with both lists
empty does it hand out a newly created block. -/
theorem blockPool_getBlockForInsertion_spec
    (st : BlockPoolInsertDestination.State) (nb : MutableBlockReference)
    (r : MutableBlockReference) (rs : List MutableBlockReference)
    (is : List BlockId) (b : BlockId) :
    (st.available_block_refs = rs ++ [r] →
      BlockPoolInsertDestination.getBlockForInsertion st nb =
        ({ st with available_block_refs := rs }, r)) ∧
    (st.available_block_refs = [] → st.available_block_ids = is ++ [b] →
      BlockPoolInsertDestination.getBlockForInsertion st nb =
        ({ st with available_block_ids := is },
         BlockPoolInsertDestination.getBlockMutable b)) ∧
    (st.available_block_refs = [] → st.available_block_ids = [] →
      BlockPoolInsertDestination.getBlockForInsertion st nb = (st, nb)) := by
  refine ⟨?_, ?_, ?_⟩
  · intro h
    simp [BlockPoolInsertDestination.getBlockForInsertion, h,
      List.getLast?_concat, List.dropLast_concat]
  · intro h1 h2
    simp [BlockPoolInsertDestination.getBlockForInsertion, h1, h2,
      List.getLast?_concat, List.dropLast_concat]
  · intro h1 h2
    simp [BlockPoolInsertDestination.getBlockForInsertion, h1, h2]

/-- Witness for C5: the BlockPool reconstruction scenario with pre-existing
ids [7, 9].  The reference pool is empty, the id list ends in 9, and the
first acquisition loads block 9 through the storage manager, leaving [7]
(so the next acquisition would return block 7 before any new block). -/
theorem blockPool_getBlockForInsertion_spec_witness :
    ((BlockPoolInsertDestination.constructFromBlocks [7, 9]).available_block_refs
        = []) ∧
    ((BlockPoolInsertDestination.constructFromBlocks [7, 9]).available_block_ids
        = [7] ++ [9]) ∧
    BlockPoolInsertDestination.getBlockForInsertion
        (BlockPoolInsertDestination.constructFromBlocks [7, 9]) ⟨100⟩ =
      ({ BlockPoolInsertDestination.constructFromBlocks [7, 9] with
          available_block_ids := [7] },
       BlockPoolInsertDestination.getBlockMutable 9) :=
  ⟨rfl, rfl,
    (blockPool_getBlockForInsertion_spec
      (BlockPoolInsertDestination.constructFromBlocks [7, 9])
      ⟨100⟩ ⟨0⟩ [] [7] 9).2.1 rfl rfl⟩

/-- C7: calling bulkInsertTuplesFromValueAccessors on an AlwaysCreate or
PartitionAware destination is a fatal configuration error; dispatch on the
destination type aborts fatally for those two strategies and only the
BlockPool strategy completes. -/
theorem bulkInsertTuplesFromValueAccessors_only_blockPool
    (ac : AlwaysCreateBlockInsertDestination.State)
    (pa : PartitionAwareInsertDestination.State)
    (accessor_attribute_map : List (List (Nat × Tuple) × List AttributeId))
    (always_mark_full : Bool) :
    bulkInsertTuplesFromValueAccessorsDispatch
        InsertDestinationType.kAlwaysCreateBlockInsertDestination
        ac pa accessor_attribute_map always_mark_full =
      Fallible.fatal
        "bulkInsertTuplesFromValueAccessors is not implemented for AlwaysCreateBlockInsertDestination" ∧
    bulkInsertTuplesFromValueAccessorsDispatch
        InsertDestinationType.kPartitionAwareInsertDestination
        ac pa accessor_attribute_map always_mark_full =
      Fallible.fatal
        "bulkInsertTuplesFromValueAccessors is not implemented for PartitionAwareInsertDestination" ∧
    bulkInsertTuplesFromValueAccessorsDispatch
        InsertDestinationType.kBlockPoolInsertDestination
        ac pa accessor_attribute_map always_mark_full = Fallible.ok () :=
  ⟨rfl, rfl, rfl⟩

/-- C8: the no-argument getBlockForInsertion() on a PartitionAware
destination is LOG(FATAL) for every state (it never yields a block), while
the partition-id-taking variant getBlockForInsertionInPartition always
hands back a block without aborting. -/
theorem partitionAware_getBlockForInsertion_fatal
    (st : PartitionAwareInsertDestination.State)
    (nb : MutableBlockReference) (part_id : PartitionId) :
    PartitionAwareInsertDestination.getBlockForInsertion st =
      Fallible.fatal
        "PartitionAwareInsertDestination::getBlockForInsertion needs a partition id as an argument." ∧
    (∃ st2 res,
      PartitionAwareInsertDestination.getBlockForInsertionInPartition st nb part_id =
        (st2, res)) :=
  ⟨rfl, ⟨_, _, rfl⟩⟩

end Quickstep
